import Mathlib

/-!
Verification of the msn-weather-wrapper weather-extraction pipeline.

Shallow embedding of `src/msn_weather_wrapper/client.py`,
`src/msn_weather_wrapper/models.py`, `src/msn_weather_wrapper/exceptions.py`
and the caching layer of `api.py`.

Modelling conventions:
* Python floats are modelled as rationals (`ℚ`); `round(x, 1)` is modelled
  by `round1` (round half to even, as CPython does).
* Python exceptions become `Except` values; the distinct exception classes
  of `exceptions.py` (plus a pydantic `ValidationError` escaping unwrapped)
  are the constructors of `WFailure`.
* The HTML page is modelled at the granularity the client reads it:
  a list of `script type="application/json"` blocks (each either malformed
  or a parsed JSON value) plus the element texts / page text that the
  BeautifulSoup selectors of the heuristic extractors return.
* The regex searches of the heuristic extractors are embedded as explicit
  left-to-right scanners.  For each of the patterns in the source the greedy
  scan is equivalent to Python's backtracking search (shortening a greedy
  `\d+`/`\d*`/`[:\s]*` run always re-exposes a character the continuation
  cannot match), so the scanners below implement the greedy scan.
-/

namespace MsnWeather

/- The library marks the rational arithmetic operations irreducible,
which blocks definitional evaluation of closed scanner terms; restore
unfolding locally so that concrete runs of the embedded code reduce. -/
attribute [local semireducible] Rat.mul Rat.add Rat.sub Rat.inv Rat.ofScientific

/-- CPython rounding of a rational to the nearest integer, half to even
(the rounding used by the built-in `round`).  `f` is the floor of `x`
(`Int.fdiv` is floor division) and `rNum / x.den` its fractional part;
the comparisons of the fractional part with 1/2 are cleared of the
positive denominator. -/
def pyRoundInt (x : ℚ) : ℤ :=
  let f : ℤ := Int.fdiv x.num x.den
  let rNum : ℤ := x.num - f * x.den
  if 2 * rNum < (x.den : ℤ) then f
  else if (x.den : ℤ) < 2 * rNum then f + 1
  else if f % 2 = 0 then f else f + 1

/-- `round(x, 1)`: round to one decimal place, half to even. -/
def round1 (x : ℚ) : ℚ := (pyRoundInt (10 * x) : ℚ) / 10

/-- Numeric value of a digit run. -/
def digitsVal (ds : List Char) : ℕ :=
  ds.foldl (fun a c => a * 10 + (c.toNat - 48)) 0

/-- Value of an integer digit run together with a fractional digit run. -/
def numVal (ip fp : List Char) : ℚ :=
  (digitsVal ip : ℚ) + (digitsVal fp : ℚ) / ((10 : ℚ) ^ fp.length)

/-- Python `int(s)`: an optional sign followed by one or more digits.
Anything else (including a decimal point) raises `ValueError`, modelled
as `none`. -/
def pyInt (s : String) : Option ℤ :=
  let core : List Char → Option ℤ := fun cs =>
    match cs.span Char.isDigit with
    | (ds, rest) => if ds.isEmpty ∨ ¬ rest.isEmpty then none else some (digitsVal ds)
  match s.data with
  | '-' :: cs => (core cs).map (fun n => -n)
  | '+' :: cs => core cs
  | cs => core cs

/-- Python `float(s)` on the literals the client can meet: optional sign,
then digits with an optional fractional part (`"10"`, `"10."`, `"10.5"`,
`".5"`).  Exponents / inf / nan are not produced by the scraped pages and
are modelled as failures. -/
def pyFloatCore (cs : List Char) : Option ℚ :=
  match cs.span Char.isDigit with
  | (ds, rest) =>
    match rest with
    | [] => if ds.isEmpty then none else some (digitsVal ds)
    | '.' :: r2 =>
      match r2.span Char.isDigit with
      | (fs, r3) =>
        if ¬ r3.isEmpty then none
        else if ds.isEmpty ∧ fs.isEmpty then none
        else some (numVal ds fs)
    | _ => none

/-- Python `float(s)` (see `pyFloatCore`). -/
def pyFloat (s : String) : Option ℚ :=
  match s.data with
  | '-' :: cs => (pyFloatCore cs).map (fun q => -q)
  | '+' :: cs => pyFloatCore cs
  | cs => pyFloatCore cs

/-- `s.rstrip("%")`: drop every trailing percent sign. -/
def rstripPct (s : String) : String :=
  ⟨(s.data.reverse.dropWhile (fun c => c = '%')).reverse⟩

/-- A JSON value as produced by `json.loads` (integer and float literals
parse to distinct Python types, which matters for `str()`/`int()`). -/
inductive Json where
  | jnull
  | jbool (b : Bool)
  | jint (n : ℤ)
  | jfloat (q : ℚ)
  | jstr (s : String)
  | jarr (xs : List Json)
  | jobj (fields : List (String × Json))

/-- First binding of a key in a JSON object field list (Python dicts hold
each key once). -/
def lookupJ (fields : List (String × Json)) (k : String) : Option Json :=
  match fields with
  | [] => none
  | (k', v) :: rest => if k' = k then some v else lookupJ rest k

/-- Decimal digits of a proper fraction `n/d` (long division), capped. -/
def fracDigits : ℕ → ℕ → ℕ → List Char
  | 0, _, _ => []
  | _, _, 0 => []
  | n, d, fuel + 1 =>
    let n10 := n * 10
    Char.ofNat (48 + n10 / d) :: fracDigits (n10 % d) d fuel

/-- Decimal rendering of a float value (always contains a decimal point,
like CPython's `repr` of a float; digits capped at 17). -/
def floatLit (q : ℚ) : String :=
  let sign := if q < 0 then "-" else ""
  let a := |q|
  let ip : ℤ := ⌊a⌋
  let fr : ℚ := a - ip
  let fs := fracDigits fr.num.toNat fr.den 17
  sign ++ toString ip ++ "." ++ (if fs.isEmpty then "0" else ⟨fs⟩)

/-- Python `str()` of a JSON value.  For containers only the failure
behaviour downstream matters: their rendering starts with a bracket, so
`int()` / `float()` on it raises, exactly as in Python. -/
def pyStrJson : Json → String
  | .jnull => "None"
  | .jbool b => if b then "True" else "False"
  | .jint n => toString n
  | .jfloat q => floatLit q
  | .jstr s => s
  | .jarr _ => "[...]"
  | .jobj _ => "{...}"

/-- Python `float()` applied to a JSON value (`float(True) = 1.0`;
`float` of `None` or a container raises, modelled as `none`). -/
def pyFloatJson : Json → Option ℚ
  | .jint n => some n
  | .jfloat q => some q
  | .jbool b => some (if b then 1 else 0)
  | .jstr s => pyFloat s
  | _ => none

/-- `(f - 32) * 5 / 9` rounded to one decimal: the Fahrenheit→Celsius
conversion at client.py line 134. -/
def fahrenheitToCelsius (f : ℚ) : ℚ := round1 ((f - 32) * 5 / 9)

/-- The raw reading dictionary returned by `_extract_weather_from_json`:
temperature already in Celsius, condition still the raw JSON value,
humidity an int, wind speed already in km/h. -/
structure RawReading where
  temperature : ℚ
  condition : Json
  humidity : ℤ
  wind_speed : ℚ

/-- One `script type="application/json"` element: either its text fails
`json.loads` or it parses to a JSON value. -/
inductive ScriptBlock where
  | malformed
  | parsed (j : Json)

/-- `Json.asObj`: the field list when the value is an object.  Every
navigation step of `_extract_weather_from_json` on a non-dict value ends
in a skip (either an explicit `continue` or a `TypeError`/`AttributeError`
caught by the per-block handler), which `none` models. -/
def Json.asObj : Json → Option (List (String × Json))
  | .jobj fields => some fields
  | _ => none

/-- `Json.asArr`: the element list when the value is an array
(the `isinstance(..., list)` checks in the source). -/
def Json.asArr : Json → Option (List Json)
  | .jarr xs => some xs
  | _ => none

/-- Key access on a JSON value that must be a dict (`"k" not in v` /
`v["k"]` in the source; a non-dict value ends the block in a skip). -/
def keyOf (j : Json) (k : String) : Option Json :=
  j.asObj.bind (fun fields => lookupJ fields k)

/-- Navigation `data["WeatherData"]["_@STATE@_"]` (client.py lines
107-114). -/
def weatherState (j : Json) : Option Json :=
  (keyOf j "WeatherData").bind (fun wd => keyOf wd "_@STATE@_")

/-- `state["forecast"][0]`: the forecast list must be a non-empty list
(client.py lines 115-121). -/
def forecast0 (j : Json) : Option Json :=
  ((weatherState j).bind (fun st => keyOf st "forecast")).bind
    (fun fc => fc.asArr.bind List.head?)

/-- `forecast["hourly"][0]`: the hourly list must be a non-empty list;
its first entry is the current conditions (client.py lines 122-129). -/
def hourly0 (j : Json) : Option Json :=
  ((forecast0 j).bind (fun f0 => keyOf f0 "hourly")).bind
    (fun hr => hr.asArr.bind List.head?)

/-- `float(current.get("temperature", 0))` converted to Celsius
(client.py lines 132-134). -/
def tempCOf (curo : List (String × Json)) : Option ℚ :=
  (pyFloatJson ((lookupJ curo "temperature").getD (.jint 0))).map fahrenheitToCelsius

/-- `current.get("cap", current.get("summary", "Unknown"))` (client.py
line 137); Python evaluates the inner `get` eagerly as the default. -/
def conditionOf (curo : List (String × Json)) : Json :=
  (lookupJ curo "cap").getD ((lookupJ curo "summary").getD (.jstr "Unknown"))

/-- `int(str(current.get("humidity", "50")).rstrip("%"))` (client.py
lines 140-141). -/
def humidityOf (curo : List (String × Json)) : Option ℤ :=
  pyInt (rstripPct (pyStrJson ((lookupJ curo "humidity").getD (.jstr "50"))))

/-- `round(float(str(current.get("windSpeed", "0"))) * 1.60934, 1)`
(client.py lines 144-146). -/
def windKmhOf (curo : List (String × Json)) : Option ℚ :=
  (pyFloat (pyStrJson ((lookupJ curo "windSpeed").getD (.jstr "0")))).map
    (fun v => round1 (v * (160934 / 100000)))

/-- The raw reading built from the first hourly entry (client.py lines
131-153). -/
def entryReading (curo : List (String × Json)) : Option RawReading := do
  let t ← tempCOf curo
  let h ← humidityOf curo
  let w ← windKmhOf curo
  pure ⟨t, conditionOf curo, h, w⟩

/-- The loop body of `_extract_weather_from_json` (client.py lines
103-156) for one script block: navigate
`WeatherData._@STATE@_.forecast[0].hourly[0]` and build the raw reading.
Every per-block error (`json.JSONDecodeError`, `KeyError`, `ValueError`,
`AttributeError`, `TypeError`) is caught in the source and turns into
`continue`, modelled as `none`. -/
def blockCandidate : ScriptBlock → Option RawReading
  | .malformed => none
  | .parsed j => (hourly0 j).bind (fun cur => cur.asObj.bind entryReading)

/-- `_extract_weather_from_json` (client.py lines 89-161): first script
block whose body produces a reading; `None` when all blocks are
exhausted. -/
def extract_weather_from_json : List ScriptBlock → Option RawReading
  | [] => none
  | b :: rest =>
    match blockCandidate b with
    | some r => some r
    | none => extract_weather_from_json rest

/-- Does `needle` start `hay`? (helper for substring containment). -/
def listStarts : List Char → List Char → Bool
  | _, [] => true
  | [], _ :: _ => false
  | h :: hs, n :: ns => h == n && listStarts hs ns

/-- Python `needle in hay` on strings: substring containment. -/
def containsSub (needle : List Char) : List Char → Bool
  | [] => needle.isEmpty
  | c :: rest => listStarts (c :: rest) needle || containsSub needle rest

/-- Case-insensitive match of the (lowercase) pattern as a prefix,
returning the remainder (models `re.IGNORECASE` literal matching). -/
def ciMatch : List Char → List Char → Option (List Char)
  | [], rest => some rest
  | _ :: _, [] => none
  | p :: ps, c :: cs => if c.toLower = p then ciMatch ps cs else none

/-- The token `\d+\.?\d*` anchored at the start of `cs`: greedy digits,
an optional point, greedy fractional digits; value and remainder.
(For every continuation in the source's patterns, shortening the greedy
runs re-exposes a digit or a point the continuation cannot match, so the
greedy parse is exactly Python's backtracking behaviour.) -/
def scanNumAt (cs : List Char) : Option (ℚ × List Char) :=
  match cs.span Char.isDigit with
  | ([], _) => none
  | (ds, rest) =>
    match rest with
    | '.' :: r2 =>
      match r2.span Char.isDigit with
      | (fs, r3) => some (numVal ds fs, r3)
    | _ => some ((digitsVal ds : ℚ), rest)

/-- `re.search(r"(-?\d+\.?\d*)", text)`: left-to-right scan for a number
with an optional sign (client.py line 178).  A bare minus sign not
followed by a digit cannot start a match. -/
def findNumberT : List Char → Option ℚ
  | [] => none
  | '-' :: rest =>
    match scanNumAt rest with
    | some (v, _) => some (-v)
    | none => findNumberT rest
  | c :: rest =>
    if c.isDigit then (scanNumAt (c :: rest)).map Prod.fst
    else findNumberT rest

/-- `_extract_temperature` (client.py lines 163-186) over the texts of
the elements matched by the temperature selectors, in document order:
first text containing a number wins; `"F" in text` selects the
Fahrenheit conversion; the result is rounded to one decimal.  `none`
models the `ValueError` raised when no element matches. -/
def extract_temperature : List String → Option ℚ
  | [] => none
  | t :: rest =>
    match findNumberT t.data with
    | some v => some (round1 (if t.data.contains 'F' then (v - 32) * 5 / 9 else v))
    | none => extract_temperature rest

/-- Python `str.isdigit` (ASCII fragment): non-empty and all digits. -/
def pyIsDigitStr (s : String) : Bool :=
  !s.data.isEmpty && s.data.all Char.isDigit

/-- The fixed vocabulary of `_extract_condition` (client.py lines
207-215), in source order. -/
def weather_terms : List String :=
  ["Sunny", "Cloudy", "Partly Cloudy", "Rainy", "Clear", "Overcast", "Thunderstorm"]

/-- `_extract_condition` (client.py lines 188-221): first element text
longer than 2 characters that is not all digits; otherwise the first
vocabulary term contained in the page text; otherwise `"Unknown"`. -/
def extract_condition (condTexts : List String) (pageText : String) : String :=
  match condTexts.find? (fun t => !t.isEmpty && decide (t.length > 2) && !pyIsDigitStr t) with
  | some t => t
  | none =>
    match weather_terms.find? (fun term => containsSub term.data pageText.data) with
    | some term => term
    | none => "Unknown"

/-- The pattern `(\d+)%` anchored at the start: greedy digit run followed
by a percent sign. -/
def digitsPctAt (cs : List Char) : Option ℕ :=
  match cs.span Char.isDigit with
  | ([], _) => none
  | (ds, rest) =>
    match rest with
    | '%' :: _ => some (digitsVal ds)
    | _ => none

/-- `re.search(r"(\d+)%", s)`: left-to-right scan. -/
def digitsPct : List Char → Option ℕ
  | [] => none
  | c :: rest => digitsPctAt (c :: rest) <|> digitsPct rest

/-- First alternative of the humidity pattern (client.py line 228),
anchored: `humidity[:\s]*(\d+)%`, case-insensitive. -/
def humB1 (cs : List Char) : Option ℕ :=
  (ciMatch "humidity".data cs).bind (fun r1 =>
    match (r1.dropWhile (fun c => c == ':' || c.isWhitespace)).span Char.isDigit with
    | ([], _) => none
    | (ds, rest) =>
      match rest with
      | '%' :: _ => some (digitsVal ds)
      | _ => none)

/-- Second alternative of the humidity pattern, anchored:
`(\d+)%\s*humidity`, case-insensitive. -/
def humB2 (cs : List Char) : Option ℕ :=
  match cs.span Char.isDigit with
  | ([], _) => none
  | (ds, rest) =>
    match rest with
    | '%' :: r2 =>
      (ciMatch "humidity".data (r2.dropWhile Char.isWhitespace)).map (fun _ => digitsVal ds)
    | _ => none

/-- `re.search` of the full humidity pattern: leftmost position wins,
first alternative preferred at equal positions. -/
def humScan : List Char → Option ℕ
  | [] => none
  | c :: rest => humB1 (c :: rest) <|> humB2 (c :: rest) <|> humScan rest

/-- The per-element step of the second humidity path (client.py lines
234-239): an element counts only when its parent mentions "humid" and
its text matches `(\d+)%`. -/
def pctElemValue (p : String × Bool) : Option ℤ :=
  if p.2 then (digitsPct p.1.data).map (fun n => (n : ℤ)) else none

/-- `_extract_humidity` (client.py lines 223-242): the page-text pattern
first; then the text nodes matching `\d+%` whose parent mentions
"humid" (second component of each pair); then the default 50. -/
def extract_humidity (pageText : String) (pctElems : List (String × Bool)) : ℤ :=
  match humScan pageText.data with
  | some n => (n : ℤ)
  | none =>
    match pctElems.findSome? pctElemValue with
    | some n => n
    | none => 50

/-- Wind-speed unit alternation `(mph|km/h|m/s)`, case-insensitive, in
source order; returns the remainder after the unit. -/
inductive WindUnit where
  | mph
  | kmh
  | ms
deriving DecidableEq

/-- Match one of the three units at the start of `cs`. -/
def unitAt (cs : List Char) : Option (WindUnit × List Char) :=
  match ciMatch "mph".data cs with
  | some r => some (.mph, r)
  | none =>
    match ciMatch "km/h".data cs with
    | some r => some (.kmh, r)
    | none => (ciMatch "m/s".data cs).map (fun r => (WindUnit.ms, r))

/-- First alternative of the wind pattern (client.py line 250), anchored:
`wind[:\s]*(\d+\.?\d*)\s*(mph|km/h|m/s)`, case-insensitive. -/
def windB1 (cs : List Char) : Option (ℚ × WindUnit) :=
  (ciMatch "wind".data cs).bind (fun r1 =>
    (scanNumAt (r1.dropWhile (fun c => c == ':' || c.isWhitespace))).bind (fun vr =>
      (unitAt (vr.2.dropWhile Char.isWhitespace)).map (fun ur => (vr.1, ur.1))))

/-- Second alternative of the wind pattern, anchored:
`(\d+\.?\d*)\s*(mph|km/h|m/s)\s*wind`, case-insensitive. -/
def windB2 (cs : List Char) : Option (ℚ × WindUnit) :=
  (scanNumAt cs).bind (fun vr =>
    (unitAt (vr.2.dropWhile Char.isWhitespace)).bind (fun ur =>
      (ciMatch "wind".data (ur.2.dropWhile Char.isWhitespace)).map (fun _ => (vr.1, ur.1))))

/-- `re.search` of the full wind pattern: leftmost position wins, first
alternative preferred at equal positions. -/
def windScan : List Char → Option (ℚ × WindUnit)
  | [] => none
  | c :: rest => windB1 (c :: rest) <|> windB2 (c :: rest) <|> windScan rest

/-- The unit conversion after a wind match (client.py lines 257-265):
mph × 1.60934, m/s × 3.6, km/h unconverted; the result of every branch
passes through `round(speed, 1)`. -/
def convertWind (speed : ℚ) (u : WindUnit) : ℚ :=
  round1 (match u with
    | .mph => speed * (160934 / 100000)
    | .ms => speed * (36 / 10)
    | .kmh => speed)

/-- `_extract_wind_speed` (client.py lines 244-268): pattern search over
the page text, with the default 0.0 when nothing matches. -/
def extract_wind_speed (pageText : String) : ℚ :=
  match windScan pageText.data with
  | some (v, u) => convertWind v u
  | none => 0

/-- The parsed document as the heuristic extractors read it: the texts of
the elements matched by the temperature selectors, the texts matched by
the condition selectors, the full page text, and the text nodes matching
`\d+%` together with whether their parent's representation mentions
"humid". -/
structure SoupDoc where
  tempTexts : List String
  condTexts : List String
  pageText : String
  pctElems : List (String × Bool)

/-- An HTML page as the client reads it: the embedded
`script type="application/json"` blocks plus the parsed document. -/
structure Html where
  scripts : List ScriptBlock
  doc : SoupDoc

/-- `models.Location`: city, country and optional coordinates. -/
structure Location where
  city : String
  country : String
  latitude : Option ℚ := none
  longitude : Option ℚ := none
deriving DecidableEq

/-- `models.WeatherData`: a validated reading (temperature in Celsius,
wind speed in km/h). -/
structure WeatherData where
  location : Location
  temperature : ℚ
  condition : String
  humidity : ℤ
  wind_speed : ℚ
deriving DecidableEq

/-- Pydantic validation on construction of `WeatherData`
(models.py lines 17-24): `humidity` must lie in [0, 100] and
`wind_speed` must be ≥ 0; a violation raises `ValidationError` (a
`ValueError` subclass), modelled as `.error` naming the offending
field. -/
def WeatherData.validate (loc : Location) (t : ℚ) (c : String) (h : ℤ) (w : ℚ) :
    Except String WeatherData :=
  if h < 0 ∨ 100 < h then .error "humidity"
  else if w < 0 then .error "wind_speed"
  else .ok ⟨loc, t, c, h, w⟩

/-- The failure taxonomy: the exception classes of `exceptions.py`
(`UpstreamError`, `ParsingError`, `LocationNotFoundError`, the
`WeatherError` base used for generic geocoding failures), plus a pydantic
`ValidationError` escaping `_parse_weather_response` unwrapped, plus
tenacity's `RetryError`.  `locationNotFound` carries the coordinates its
message interpolates. -/
inductive WFailure where
  | upstream (msg : String)
  | parsing (msg : String)
  | validation (field : String)
  | locationNotFound (latitude longitude : ℚ)
  | weatherError (msg : String)
  | retryError
deriving DecidableEq

/-- The HTML-fallback branch of `_parse_weather_response` (client.py
lines 71-87): extract the four fields; the only `ValueError` the
extractors raise is the missing-temperature one, and a pydantic
`ValidationError` from the `WeatherData` construction is also a
`ValueError`; both are wrapped into `ParsingError` by the
`except ValueError` handler.  The pydantic message is modelled by the
offending field's name. -/
def parseHeuristic (doc : SoupDoc) (loc : Location) : Except WFailure WeatherData :=
  match extract_temperature doc.tempTexts with
  | none =>
    .error (.parsing "Failed to parse weather data: Could not extract temperature from page")
  | some t =>
    match WeatherData.validate loc t (extract_condition doc.condTexts doc.pageText)
        (extract_humidity doc.pageText doc.pctElems) (extract_wind_speed doc.pageText) with
    | .ok w => .ok w
    | .error f => .error (.parsing ("Failed to parse weather data: " ++ f))

/-- `_parse_weather_response` (client.py lines 44-87).  The structured
branch constructs `WeatherData` OUTSIDE the `try` block, so a pydantic
`ValidationError` there escapes unwrapped (`.validation`); only the
heuristic branch wraps `ValueError` into `ParsingError`. -/
def parse_weather_response (html : Html) (loc : Location) : Except WFailure WeatherData :=
  match extract_weather_from_json html.scripts with
  | some r =>
    match WeatherData.validate loc r.temperature (pyStrJson r.condition) r.humidity r.wind_speed with
    | .ok w => .ok w
    | .error f => .error (.validation f)
  | none => parseHeuristic html.doc loc

/-- The fetch collaborator (`self.session.get` + `raise_for_status`),
indexed by attempt number: either a page body or a transport failure
(connection error, timeout, or non-2xx status — all raised as
`requests.RequestException`). -/
inductive FetchResult where
  | ok (body : Html)
  | transport (msg : String)

/-- One attempt of the body of `WeatherClient.get_weather` (client.py
lines 342-350): fetch, wrap any `RequestException` into
`UpstreamError`, else parse. -/
def get_weather_attempt (fetch : ℕ → FetchResult) (loc : Location) (n : ℕ) :
    Except WFailure WeatherData :=
  match fetch n with
  | .transport m => .error (.upstream ("Failed to fetch weather data from MSN: " ++ m))
  | .ok body => parse_weather_response body loc

/-- The `retry=` argument at client.py line 327:
`lambda e: isinstance(e, requests.RequestException)`.  Tenacity invokes
this predicate with the `RetryCallState` of the attempt, not with the
exception, and a `RetryCallState` is never an instance of
`requests.RequestException`, so the predicate is constantly false. -/
def tenacity_retry_arg (_outcome : Except WFailure WeatherData) : Bool := false

/-- Tenacity's retry loop with `stop_after_attempt` as fuel: run the
attempt; if the retry predicate accepts the outcome, retry until the
attempt budget is exhausted (then `RetryError`), otherwise return the
outcome as is (re-raising its exception). -/
def tenacityRun (attempt : ℕ → Except WFailure WeatherData)
    (pred : Except WFailure WeatherData → Bool) : ℕ → ℕ → Except WFailure WeatherData
  | _, 0 => .error .retryError
  | idx, fuel + 1 =>
    let r := attempt idx
    if pred r then
      if fuel = 0 then .error .retryError
      else tenacityRun attempt pred (idx + 1) fuel
    else r

/-- `WeatherClient.get_weather` (client.py lines 324-350): the attempt
body wrapped by `@retry(stop=stop_after_attempt(3), ...)` with the
predicate of `tenacity_retry_arg`. -/
def get_weather (fetch : ℕ → FetchResult) (loc : Location) : Except WFailure WeatherData :=
  tenacityRun (get_weather_attempt fetch loc) tenacity_retry_arg 0 3

/-- The geocoding collaborator's answer to `reverse(lat, lon)`: no
candidate address, an address field dict, or a raised exception. -/
inductive GeoAnswer where
  | noResult
  | found (address : List (String × String))
  | raised (msg : String)

/-- First binding of a key in an address dict. -/
def lookupStr (address : List (String × String)) (k : String) : Option String :=
  match address with
  | [] => none
  | (k2, v) :: rest => if k2 = k then some v else lookupStr rest k

/-- Python `a or b` on optional strings: a present but empty string is
falsy and falls through. -/
def pyOr (a b : Option String) : Option String :=
  match a with
  | some s => if s.isEmpty then b else some s
  | none => b

/-- `_reverse_geocode_to_location` (client.py lines 270-306): no result
raises `LocationNotFoundError` (re-raised as itself by the first
handler); any other geocoder failure is wrapped into the `WeatherError`
base; otherwise the city comes from the or-chain
city → town → village → county → "Unknown", the country from
`address.get("country", "Unknown")`, and the original coordinates are
carried through. -/
def reverse_geocode_to_location (geo : GeoAnswer) (latitude longitude : ℚ) :
    Except WFailure Location :=
  match geo with
  | .noResult => .error (.locationNotFound latitude longitude)
  | .raised m => .error (.weatherError ("Failed to reverse geocode coordinates: " ++ m))
  | .found address =>
    let city := (pyOr (lookupStr address "city")
      (pyOr (lookupStr address "town")
        (pyOr (lookupStr address "village")
          (pyOr (lookupStr address "county") (some "Unknown"))))).getD "Unknown"
    let country := (lookupStr address "country").getD "Unknown"
    .ok ⟨city, country, some latitude, some longitude⟩

/-- `str(e)` of a pipeline exception, as interpolated into the API error
body (api.py line 146).  The dynamic parts of the library-generated
messages (pydantic, tenacity, coordinate interpolation) are modelled by
fixed renderings of their data. -/
def failureStr : WFailure → String
  | .upstream m => m
  | .parsing m => m
  | .validation f => "validation error for WeatherData: " ++ f
  | .locationNotFound _ _ => "Could not determine location for coordinates"
  | .weatherError m => m
  | .retryError => "RetryError"

/-- The body of an API weather response (api.py lines 129-148): the
serialized reading with status 200, or the error dict with status
500. -/
inductive ApiBody where
  | weather (w : WeatherData)
  | errorBody (message : String)
deriving DecidableEq

/-- The uncached body of `get_cached_weather` (api.py lines 110-148):
build the `Location`, run the pipeline, catch every exception into the
error body. -/
def get_cached_weather_compute (fetch : ℕ → FetchResult) (city country : String) :
    ApiBody × ℕ :=
  match get_weather fetch ⟨city, country, none, none⟩ with
  | .ok w => (.weather w, 200)
  | .error e => (.errorBody (failureStr e), 500)

/-- The `lru_cache(maxsize=1000)` state on `get_cached_weather`:
entries most-recently-used first, plus a counter of invocations of the
wrapped function (the observable number of pipeline runs). -/
structure CacheState where
  entries : List ((String × String × ℕ) × (ApiBody × ℕ))
  calls : ℕ

/-- Cache lookup by key. -/
def cacheLookup (k : String × String × ℕ) :
    List ((String × String × ℕ) × (ApiBody × ℕ)) → Option (ApiBody × ℕ)
  | [] => none
  | (k2, v) :: rest => if k2 = k then some v else cacheLookup k rest

/-- Drop the entry with the given key (for the move-to-front on a
hit). -/
def cacheDrop (k : String × String × ℕ) :
    List ((String × String × ℕ) × (ApiBody × ℕ)) →
    List ((String × String × ℕ) × (ApiBody × ℕ))
  | [] => []
  | (k2, v) :: rest => if k2 = k then rest else (k2, v) :: cacheDrop k rest

/-- `get_cached_weather(city, country, minute_bucket)` under
`lru_cache(maxsize=1000)`: a hit returns the stored outcome (success or
failure alike) and moves the key to most-recently-used without invoking
the wrapped function; a miss invokes it, stores the outcome and evicts
the least-recently-used entry beyond 1000. -/
def get_cached_weather (fetch : ℕ → FetchResult) (st : CacheState)
    (city country : String) (minute_bucket : ℕ) : (ApiBody × ℕ) × CacheState :=
  let k := (city, country, minute_bucket)
  match cacheLookup k st.entries with
  | some v => (v, ⟨(k, v) :: cacheDrop k st.entries, st.calls⟩)
  | none =>
    let v := get_cached_weather_compute fetch city country
    (v, ⟨((k, v) :: st.entries).take 1000, st.calls + 1⟩)

/-- The bucket computation of the API routes (api.py line 329):
`datetime.now().minute // 5`, as a function of the wall-clock minute
count (`.minute` is the minute count modulo 60). -/
def minuteBucket (minutes : ℕ) : ℕ := (minutes % 60) / 5

/-- A script block holding the recognized nested path with the given
hourly list (the shape `_extract_weather_from_json` navigates). -/
def mkWeatherBlock (hourly : List Json) : ScriptBlock :=
  .parsed (.jobj [("WeatherData", .jobj [("_@STATE@_", .jobj
    [("forecast", .jarr [.jobj [("hourly", .jarr hourly)]])])])])

/-- A recognized block carrying the scenario-A hourly entry:
temperature 72 °F, condition "Sunny", humidity "65%", wind "10" mph. -/
def sunnyBlock : ScriptBlock :=
  mkWeatherBlock [.jobj [("temperature", .jint 72), ("cap", .jstr "Sunny"),
    ("humidity", .jstr "65%"), ("windSpeed", .jstr "10")]]

/-- A recognized block whose hourly entry carries the out-of-range
humidity "150%". -/
def badHumidityBlock : ScriptBlock :=
  mkWeatherBlock [.jobj [("temperature", .jint 72), ("humidity", .jstr "150%")]]

/-- A parsed document with nothing the heuristic extractors can use. -/
def emptyDoc : SoupDoc := ⟨[], [], "", []⟩

/-- A parsed document whose candidate texts carry no numeric token, no
usable condition text and no recognized pattern: every heuristic
extractor is thrown back on its default. -/
def plainDoc : SoupDoc := ⟨["no temp here"], ["ab"], "hello", [("5%", false)]⟩

/-- A fetch collaborator failing on the first two attempts and serving a
parseable page on the third. -/
def flakyFetch : ℕ → FetchResult
  | 0 => .transport "connection refused"
  | 1 => .transport "timed out"
  | _ => .ok ⟨[sunnyBlock], emptyDoc⟩

/-- The location used by the concrete scenarios. -/
def seattle : Location := ⟨"Seattle", "USA", none, none⟩

/-- The sentence of the spec, stated independently of the source's
or-chain: the city is the first of the fields city, town, village,
county that is present and non-empty (a present-but-empty Python string
is falsy and falls through), otherwise "Unknown". -/
def specCityChoice (address : List (String × String)) : String :=
  match ["city", "town", "village", "county"].findSome?
      (fun k => (lookupStr address k).filter (fun s => !s.isEmpty)) with
  | some c => c
  | none => "Unknown"

lemma blockCandidate_mkWeatherBlock (hourly : List Json) :
    blockCandidate (mkWeatherBlock hourly) =
      hourly.head?.bind (fun cur => cur.asObj.bind entryReading) := rfl

/-- Claim C10: in the structured-payload extractor, a recognized block
whose first hourly entry lacks a temperature field is neither skipped
nor a parsing failure: `current.get("temperature", 0)` silently defaults
to 0 °F, so the extractor returns a reading with temperature
−17.8 °C (−89/5). -/
theorem claim10_missing_temperature_default (fields : List (String × Json))
    (tail : List Json) (h : ℤ) (w : ℚ)
    (hTemp : lookupJ fields "temperature" = none)
    (hHum : humidityOf fields = some h)
    (hWind : windKmhOf fields = some w) :
    blockCandidate (mkWeatherBlock (.jobj fields :: tail)) =
      some ⟨-89/5, conditionOf fields, h, w⟩ := by
  have hF : fahrenheitToCelsius 0 = -89/5 := by decide
  simp [blockCandidate_mkWeatherBlock, Json.asObj, entryReading, tempCOf, hTemp, hHum, hWind, hF,
    pyFloatJson]

/-- Witness for C10: the empty hourly entry (every field at its
default) yields the −17.8 °C reading with humidity 50 and wind 0. -/
theorem claim10_witness :
    blockCandidate (mkWeatherBlock [.jobj []]) =
      some ⟨-89/5, .jstr "Unknown", 50, 0⟩ :=
  claim10_missing_temperature_default [] [] 50 0 rfl rfl rfl

/-- Counterexample to claim C9 as stated: a km/h wind value does NOT
pass through unchanged — every branch of `_extract_wind_speed` ends in
`round(speed, 1)`, so "wind: 10.26 km/h" comes back as 10.3, not
10.26. -/
theorem claim9_counterexample :
    windScan ("wind: 10.26 km/h").data = some (1026/100, .kmh)
    ∧ extract_wind_speed "wind: 10.26 km/h" = 103/10
    ∧ (103/10 : ℚ) ≠ 1026/100 := by
  refine ⟨rfl, rfl, by norm_num⟩

/-- Claim C9 as amended: temperature conversion is
`round((f - 32) * 5 / 9, 1)` for every f (fixture 100 °F → 37.8 °C);
wind normalization multiplies mph by 1.60934 and m/s by 3.6, and km/h
undergoes no unit conversion — but every branch, km/h included, is
rounded to one decimal place. -/
theorem claim9_conversions :
    (∀ f : ℚ, fahrenheitToCelsius f = round1 ((f - 32) * 5 / 9))
    ∧ fahrenheitToCelsius 100 = 378/10
    ∧ (∀ v : ℚ, convertWind v .mph = round1 (v * (160934/100000))
        ∧ convertWind v .ms = round1 (v * (36/10))
        ∧ convertWind v .kmh = round1 v)
    ∧ extract_wind_speed "Wind: 10 mph" = 161/10
    ∧ extract_wind_speed "Wind: 5 m/s" = 18
    ∧ extract_wind_speed "Wind: 3 km/h" = 3 :=
  ⟨fun _ => rfl, by decide, fun _ => ⟨rfl, rfl, rfl⟩, rfl, rfl, rfl⟩

/-- Claim C1 is a code bug: tenacity's `retry=` argument at client.py
line 327 is handed the attempt's `RetryCallState`, never an exception,
so it is constantly false — and the attempt body re-raises transport
errors already wrapped as `UpstreamError`, which the predicate would
reject anyway.  Hence `get_weather` performs exactly one attempt for
every fetch collaborator; a collaborator failing twice then succeeding
on the 3rd attempt yields the FIRST attempt's Upstream failure, not
success, even though the 3rd attempt would parse. -/
theorem claim1_no_retry_single_attempt :
    (∀ (fetch : ℕ → FetchResult) (loc : Location),
      get_weather fetch loc = get_weather_attempt fetch loc 0)
    ∧ get_weather flakyFetch seattle
        = .error (.upstream "Failed to fetch weather data from MSN: connection refused")
    ∧ get_weather_attempt flakyFetch seattle 2
        = .ok ⟨seattle, 111/5, "Sunny", 65, 161/10⟩ :=
  ⟨fun _ _ => rfl, rfl, rfl⟩

/-- Claim C3 is a code bug: on the structured path the `WeatherData`
construction sits OUTSIDE the `try` of `_parse_weather_response`, so an
out-of-range humidity (here "150%", stripped and parsed to 150) escapes
as a bare pydantic `ValidationError` instead of the documented
`ParsingError`; on the heuristic path the same out-of-range humidity IS
wrapped into a Parsing failure.  Both paths strip the trailing percent
marker and parse to an integer, and neither clamps. -/
theorem claim3_humidity_validation_leak :
    extract_weather_from_json [badHumidityBlock] = some ⟨111/5, .jstr "Unknown", 150, 0⟩
    ∧ parse_weather_response ⟨[badHumidityBlock], emptyDoc⟩ seattle
        = .error (.validation "humidity")
    ∧ (∀ m, parse_weather_response ⟨[badHumidityBlock], emptyDoc⟩ seattle
        ≠ .error (.parsing m))
    ∧ parse_weather_response ⟨[], ⟨["72"], [], "humidity: 150%", []⟩⟩ seattle
        = .error (.parsing "Failed to parse weather data: humidity")
    ∧ humidityOf [("humidity", .jstr "65%")] = some 65
    ∧ extract_humidity "65% humidity" [] = 65 := by
  refine ⟨rfl, rfl, ?_, rfl, rfl, rfl⟩
  intro m hm
  have key : parse_weather_response ⟨[badHumidityBlock], emptyDoc⟩ seattle
      = .error (.validation "humidity") := rfl
  rw [key] at hm
  simp at hm

/-- Claim C6: the structured-payload extractor is total over its input
(the per-block handler catches every error class the body can raise, and
the outer handler catches the rest, so nothing escapes its boundary):
a malformed block, a block missing the expected nested path, an empty
hourly list, or a block with a garbage temperature field is skipped, and
only exhausting all blocks yields the `None` that signals fallback. -/
theorem claim6_block_skipping :
    extract_weather_from_json [] = none
    ∧ (∀ b rest, blockCandidate b = none →
        extract_weather_from_json (b :: rest) = extract_weather_from_json rest)
    ∧ (∀ blocks, (∀ b ∈ blocks, blockCandidate b = none) →
        extract_weather_from_json blocks = none)
    ∧ blockCandidate .malformed = none
    ∧ blockCandidate (.parsed (.jobj [])) = none
    ∧ blockCandidate (.parsed (.jstr "not an object")) = none
    ∧ blockCandidate (mkWeatherBlock []) = none
    ∧ blockCandidate (mkWeatherBlock [.jobj [("temperature", .jstr "garbage")]]) = none := by
  refine ⟨rfl, ?_, ?_, rfl, rfl, rfl, rfl, rfl⟩
  · intro b rest h
    simp [extract_weather_from_json, h]
  · intro blocks h
    induction blocks with
    | nil => rfl
    | cons b rest ih =>
      have hb := h b (List.mem_cons_self b rest)
      simp [extract_weather_from_json, hb]
      exact ih (fun x hx => h x (List.mem_cons_of_mem b hx))

/-- Witness for C6: a malformed block followed by a pathless block is
exhausted to `None`. -/
theorem claim6_witness :
    extract_weather_from_json [ScriptBlock.malformed, .parsed (.jobj [])] = none :=
  claim6_block_skipping.2.2.1 [ScriptBlock.malformed, .parsed (.jobj [])]
    (by
      intro b hb
      rcases List.mem_cons.mp hb with rfl | hb2
      · rfl
      · rcases List.mem_cons.mp hb2 with rfl | h3
        · rfl
        · cases h3)

/-- Claim C5: with every earlier block skipped (not recognized, or
rejected per C6), the first block producing a reading determines the
extractor's result — later blocks are ignored; and a recognized block's
reading depends only on the FIRST entry of its hourly list (later
entries are ignored). -/
theorem claim5_first_block_first_entry (pre post : List ScriptBlock) (b : ScriptBlock)
    (r : RawReading)
    (hpre : ∀ x ∈ pre, blockCandidate x = none)
    (hb : blockCandidate b = some r) :
    extract_weather_from_json (pre ++ b :: post) = some r
    ∧ ∀ (e : Json) (tail tail2 : List Json),
        blockCandidate (mkWeatherBlock (e :: tail)) =
          blockCandidate (mkWeatherBlock (e :: tail2)) := by
  refine ⟨?_, fun e tail tail2 => rfl⟩
  induction pre with
  | nil => simp [extract_weather_from_json, hb]
  | cons x xs ih =>
    have hx := hpre x (List.mem_cons_self x xs)
    simp [extract_weather_from_json, hx]
    exact ih (fun y hy => hpre y (List.mem_cons_of_mem x hy))

/-- Witness for C5: a malformed leading block is skipped, the scenario-A
block wins, and a trailing block is ignored. -/
theorem claim5_witness :
    extract_weather_from_json [ScriptBlock.malformed, sunnyBlock, .parsed (.jobj [])]
      = some ⟨111/5, .jstr "Sunny", 65, 161/10⟩ :=
  (claim5_first_block_first_entry [ScriptBlock.malformed] [.parsed (.jobj [])] sunnyBlock
    ⟨111/5, .jstr "Sunny", 65, 161/10⟩
    (by
      intro x hx
      rcases List.mem_cons.mp hx with rfl | h2
      · rfl
      · cases h2)
    rfl).1

/-- Counterexample to claim C4 as stated: a structured reading with
humidity 150 is yielded by the extractor, yet `_parse_weather_response`
does NOT return it — the `WeatherData` construction raises the
validation failure instead (cf. C3). -/
theorem claim4_counterexample :
    extract_weather_from_json [badHumidityBlock] = some ⟨111/5, .jstr "Unknown", 150, 0⟩
    ∧ (∀ w : WeatherData,
        parse_weather_response ⟨[badHumidityBlock], emptyDoc⟩ seattle ≠ .ok w) := by
  refine ⟨rfl, ?_⟩
  intro w hw
  have key : parse_weather_response ⟨[badHumidityBlock], emptyDoc⟩ seattle
      = .error (.validation "humidity") := rfl
  rw [key] at hw
  simp at hw

/-- Claim C4 as amended: whenever the structured extractor yields a
reading, `_parse_weather_response` builds its result from that reading
alone — returning it whenever it passes output validation — and the
heuristic extractor is never consulted (the result is independent of
the parsed document). -/
theorem claim4_structured_short_circuit (scripts : List ScriptBlock) (doc doc2 : SoupDoc)
    (loc : Location) (r : RawReading)
    (h : extract_weather_from_json scripts = some r) :
    (∀ w, WeatherData.validate loc r.temperature (pyStrJson r.condition) r.humidity r.wind_speed
        = .ok w →
      parse_weather_response ⟨scripts, doc⟩ loc = .ok w)
    ∧ parse_weather_response ⟨scripts, doc⟩ loc = parse_weather_response ⟨scripts, doc2⟩ loc := by
  constructor
  · intro w hw
    simp [parse_weather_response, h, hw]
  · simp [parse_weather_response, h]

/-- Witness for C4: the scenario-A page parses to the structured reading
regardless of what the heuristic extractors would see. -/
theorem claim4_witness :
    parse_weather_response ⟨[sunnyBlock], ⟨["99"], ["Rainy"], "humidity: 10%", []⟩⟩ seattle
        = .ok ⟨seattle, 111/5, "Sunny", 65, 161/10⟩
    ∧ parse_weather_response ⟨[sunnyBlock], ⟨["99"], ["Rainy"], "humidity: 10%", []⟩⟩ seattle
        = parse_weather_response ⟨[sunnyBlock], emptyDoc⟩ seattle :=
  ⟨(claim4_structured_short_circuit [sunnyBlock] ⟨["99"], ["Rainy"], "humidity: 10%", []⟩
      emptyDoc seattle ⟨111/5, .jstr "Sunny", 65, 161/10⟩ rfl).1
      ⟨seattle, 111/5, "Sunny", 65, 161/10⟩ rfl,
    (claim4_structured_short_circuit [sunnyBlock] ⟨["99"], ["Rainy"], "humidity: 10%", []⟩
      emptyDoc seattle ⟨111/5, .jstr "Sunny", 65, 161/10⟩ rfl).2⟩

/-- Claim C7: in the heuristic extractor, temperature is the only field
without a silent default.  When no candidate text holds a numeric token
the whole parse is a Parsing failure; under the same "nothing found"
circumstances humidity falls back to 50, wind speed to 0.0, and the
condition to "Unknown". -/
theorem claim7_temperature_only_hard_failure (doc : SoupDoc) (loc : Location)
    (hT : ∀ t ∈ doc.tempTexts, findNumberT t.data = none)
    (hH : humScan doc.pageText.data = none)
    (hP : ∀ p ∈ doc.pctElems, p.2 = false ∨ digitsPct p.1.data = none)
    (hW : windScan doc.pageText.data = none)
    (hC1 : ∀ t ∈ doc.condTexts,
      (!t.isEmpty && decide (t.length > 2) && !pyIsDigitStr t) = false)
    (hC2 : ∀ term ∈ weather_terms, containsSub term.data doc.pageText.data = false) :
    parseHeuristic doc loc
      = .error (.parsing "Failed to parse weather data: Could not extract temperature from page")
    ∧ extract_temperature doc.tempTexts = none
    ∧ extract_humidity doc.pageText doc.pctElems = 50
    ∧ extract_wind_speed doc.pageText = 0
    ∧ extract_condition doc.condTexts doc.pageText = "Unknown" := by
  obtain ⟨ts, cs, pt, pe⟩ := doc
  simp only at hT hH hP hW hC1 hC2
  have hTemp : extract_temperature ts = none := by
    induction ts with
    | nil => rfl
    | cons t rest ih =>
      have ht := hT t (List.mem_cons_self t rest)
      simp [extract_temperature, ht]
      exact ih (fun y hy => hT y (List.mem_cons_of_mem t hy))
  have hHum : extract_humidity pt pe = 50 := by
    have hfs : pe.findSome? pctElemValue = none := by
      induction pe with
      | nil => rfl
      | cons p rest ih =>
        have step : pctElemValue p = none := by
          rcases hP p (List.mem_cons_self p rest) with h2 | h2 <;> simp [pctElemValue, h2]
        have tail := ih (fun y hy => hP y (List.mem_cons_of_mem p hy))
        simp [List.findSome?_cons, step, tail]
    simp [extract_humidity, hH, hfs]
  have hWind : extract_wind_speed pt = 0 := by
    simp [extract_wind_speed, hW]
  have hCond : extract_condition cs pt = "Unknown" := by
    have h1 : cs.find? (fun t => !t.isEmpty && decide (t.length > 2) && !pyIsDigitStr t)
        = none :=
      List.find?_eq_none.mpr (fun x hx => by simp [hC1 x hx])
    have h2 : weather_terms.find? (fun term => containsSub term.data pt.data) = none :=
      List.find?_eq_none.mpr (fun x hx => by simp [hC2 x hx])
    simp [extract_condition, h1, h2]
  refine ⟨?_, hTemp, hHum, hWind, hCond⟩
  simp [parseHeuristic, hTemp]

/-- Witness for C7: on `plainDoc` the parse fails on temperature while
humidity, wind speed and condition fall back to their defaults. -/
theorem claim7_witness :
    parseHeuristic plainDoc seattle
      = .error (.parsing "Failed to parse weather data: Could not extract temperature from page")
    ∧ extract_temperature plainDoc.tempTexts = none
    ∧ extract_humidity plainDoc.pageText plainDoc.pctElems = 50
    ∧ extract_wind_speed plainDoc.pageText = 0
    ∧ extract_condition plainDoc.condTexts plainDoc.pageText = "Unknown" :=
  claim7_temperature_only_hard_failure plainDoc seattle
    (by
      intro t ht
      rcases List.mem_singleton.mp ht with rfl
      rfl)
    rfl
    (by
      intro p hp
      rcases List.mem_singleton.mp hp with rfl
      exact Or.inl rfl)
    rfl
    (by
      intro t ht
      rcases List.mem_singleton.mp ht with rfl
      rfl)
    (by decide)

/-- Claim C8: reverse geocoding with no address candidates yields a
LocationNotFound failure and never the generic failure; any other
geocoder failure is wrapped as the generic (`WeatherError`) failure; on
success the city follows the ordered preference list
city → town → village → county → "Unknown" (`specCityChoice`, stated
from the spec's words), the country defaults to "Unknown", and the
produced Location carries the original input coordinates. -/
theorem claim8_reverse_geocode (address : List (String × String)) (m : String) (lat lon : ℚ) :
    reverse_geocode_to_location .noResult lat lon = .error (.locationNotFound lat lon)
    ∧ (∀ msg, reverse_geocode_to_location .noResult lat lon ≠ .error (.weatherError msg))
    ∧ reverse_geocode_to_location (.raised m) lat lon
        = .error (.weatherError ("Failed to reverse geocode coordinates: " ++ m))
    ∧ reverse_geocode_to_location (.found address) lat lon
        = .ok ⟨specCityChoice address, (lookupStr address "country").getD "Unknown",
            some lat, some lon⟩ := by
  refine ⟨rfl, ?_, rfl, ?_⟩
  · intro msg hmsg
    simp [reverse_geocode_to_location] at hmsg
  · have key : (pyOr (lookupStr address "city")
        (pyOr (lookupStr address "town")
          (pyOr (lookupStr address "village")
            (pyOr (lookupStr address "county") (some "Unknown"))))).getD "Unknown"
        = specCityChoice address := by
      unfold specCityChoice
      rcases hc : lookupStr address "city" with _ | c <;>
        rcases ht : lookupStr address "town" with _ | t <;>
          rcases hv : lookupStr address "village" with _ | v <;>
            rcases hk : lookupStr address "county" with _ | k <;>
              simp [pyOr, hc, ht, hv, hk, List.findSome?_cons, Option.filter] <;>
                split_ifs <;> simp_all
    simp only [reverse_geocode_to_location, key]

/-- Claim C2: starting from an empty cache, two calls with the same
(city, country, bucket) key return identical outcomes — whatever the
pipeline produced, stored failures included, since the statement holds
for every fetch collaborator — with no second invocation of the wrapped
pipeline observable on the call counter; and the call five minutes
later falls in a different bucket and does trigger a new pipeline
invocation. -/
theorem claim2_cache_hit_and_bucket_expiry (fetch : ℕ → FetchResult)
    (city country : String) (m : ℕ) :
    let s0 : CacheState := ⟨[], 0⟩
    let r1 := get_cached_weather fetch s0 city country (minuteBucket m)
    let r2 := get_cached_weather fetch r1.2 city country (minuteBucket m)
    let r3 := get_cached_weather fetch r2.2 city country (minuteBucket (m + 5))
    r1.1 = get_cached_weather_compute fetch city country
    ∧ r2.1 = r1.1
    ∧ r1.2.calls = 1
    ∧ r2.2.calls = 1
    ∧ r3.2.calls = 2 := by
  have hb : minuteBucket m ≠ minuteBucket (m + 5) := by
    unfold minuteBucket
    omega
  simp only [get_cached_weather, cacheLookup, List.take, Prod.mk.injEq]
  simp [hb, cacheDrop, cacheLookup]

end MsnWeather
